import Mathlib

/-!
Verification of the double-entry ledger and document-totals core of the
ERP repository (src/System/accounting, src/System/sales,
src/System/purchasing).

Monetary amounts are modelled as exact rationals (`ℚ`), matching the
exact `decimal.Decimal` arithmetic of the source.  Python's built-in
`round(x, 2)` on `Decimal` values rounds half to even; it is modelled by
`round2` below.  Status and type enumerations are modelled as the string
values the source stores ("draft", "posted", "debit", "asset", ...).
Django model instances become Lean structures; `obj.save()` /
`obj.save(update_fields=[...])` become explicit record updates of the
stored record, copying exactly the written columns.  A raised Python
exception becomes an `Except.error` value.
-/

attribute [local semireducible] Rat.mul Rat.add Rat.sub Rat.inv

/-- Round half to even at the scale of one (banker's rounding on `ℚ`),
the rounding used by Python's `round` on `Decimal` values.
`x.num.fdiv x.den` is the floor of `x`. -/
def roundHalfEven (x : ℚ) : ℤ :=
  let f : ℤ := x.num.fdiv x.den
  let r : ℚ := x - f
  if r < 1/2 then f
  else if 1/2 < r then f + 1
  else if f % 2 = 0 then f else f + 1

/-- `round(x, 2)` of Python on exact decimal values: round half to even
at two decimal places. -/
def round2 (x : ℚ) : ℚ := (roundHalfEven (100 * x) : ℚ) / 100

/-- `accounting.models.Tax`: the fields used by `calculate_tax`
(src/System/accounting/models.py, lines 143-173).  `rate` carries the
field validators' range [0, 1]. -/
structure Tax where
  rate : ℚ
  is_inclusive : Bool
deriving DecidableEq

/-- The dict returned by `Tax.calculate_tax`. -/
structure TaxResult where
  base_amount : ℚ
  tax_amount : ℚ
  total_amount : ℚ
deriving DecidableEq

/-- `Tax.calculate_tax` (src/System/accounting/models.py, lines 158-173):
split `amount` into base and tax, inclusive or exclusive, returning all
three values rounded to 2 decimal places. -/
def Tax.calculate_tax (self : Tax) (amount : ℚ) : TaxResult :=
  if self.is_inclusive then
    let tax_amount := amount * self.rate / (1 + self.rate)
    let base_amount := amount - tax_amount
    { base_amount := round2 base_amount
      tax_amount := round2 tax_amount
      total_amount := round2 (base_amount + tax_amount) }
  else
    let base_amount := amount
    let tax_amount := amount * self.rate
    { base_amount := round2 base_amount
      tax_amount := round2 tax_amount
      total_amount := round2 (base_amount + tax_amount) }

/-- Shared shape of `SalesOrderLine`, `PurchaseOrderLine`,
`SalesInvoiceLine` and `PurchaseBillLine`: quantity, unit price, derived
discount amount and line total, and an optional tax
(src/System/sales/models.py lines 129-147, src/System/purchasing/models.py
lines 151-171). -/
structure DocumentLine where
  quantity : ℚ
  unit_price : ℚ
  line_total : ℚ
  discount_percent : ℚ
  discount_amount : ℚ
  tax : Option Tax
deriving DecidableEq

/-- Field computation of `SalesOrderLine.save`
(src/System/sales/models.py, lines 151-157): when `discount_percent > 0`
recompute `discount_amount`, then always recompute `line_total`.
The subsequent `self.order.calculate_totals()` cascade is modelled
separately by `SalesOrder.calculate_totals`. -/
def SalesOrderLine.save (self : DocumentLine) : DocumentLine :=
  let s1 :=
    if self.discount_percent > 0 then
      { self with discount_amount :=
          self.quantity * self.unit_price * (self.discount_percent / 100) }
    else self
  { s1 with line_total := s1.quantity * s1.unit_price - s1.discount_amount }

/-- Field computation of `PurchaseOrderLine.save`
(src/System/purchasing/models.py, lines 176-182); identical in form to
`SalesOrderLine.save`. -/
def PurchaseOrderLine.save (self : DocumentLine) : DocumentLine :=
  let s1 :=
    if self.discount_percent > 0 then
      { self with discount_amount :=
          self.quantity * self.unit_price * (self.discount_percent / 100) }
    else self
  { s1 with line_total := s1.quantity * s1.unit_price - s1.discount_amount }

/-- The tax contribution of one line to a document's `tax_amount`:
`calculate_tax(line.line_total)['tax_amount']` when the line has a tax,
0 otherwise. -/
def lineTaxAmount (l : DocumentLine) : ℚ :=
  match l.tax with
  | some t => (t.calculate_tax l.line_total).tax_amount
  | none => 0

/-- The module-level names bound by the import statements of
src/System/sales/models.py (lines 1-9).  Note that `timezone` is not
among them, although `SalesInvoice.calculate_totals` refers to it. -/
def sales_models_imported_names : List String :=
  ["models", "User", "MinValueValidator", "MaxValueValidator", "Decimal",
   "BaseModel", "Company", "Address", "Contact", "Sequence",
   "Product", "Warehouse", "Tax", "ChartOfAccount"]

/-- The module-level names bound by the import statements of
src/System/purchasing/models.py (lines 1-8).  `timezone` is not among
them, although `PurchaseBill.calculate_totals` refers to it. -/
def purchasing_models_imported_names : List String :=
  ["models", "User", "MinValueValidator", "Decimal",
   "BaseModel", "Company", "Sequence",
   "Product", "Warehouse", "Tax", "ChartOfAccount"]

/-- A raised Python exception that is not one of the domain errors of
the spec's taxonomy: evaluating an unbound name raises
`NameError(name)`. -/
inductive CalcError where
  | nameError (name : String)
deriving DecidableEq

instance {ε α : Type} [DecidableEq ε] [DecidableEq α] : DecidableEq (Except ε α) := fun a b =>
  match a, b with
  | .ok x, .ok y =>
    if h : x = y then isTrue (by rw [h]) else isFalse (fun hh => h (Except.ok.inj hh))
  | .error x, .error y =>
    if h : x = y then isTrue (by rw [h]) else isFalse (fun hh => h (Except.error.inj hh))
  | .ok _, .error _ => isFalse (fun hh => Except.noConfusion hh)
  | .error _, .ok _ => isFalse (fun hh => Except.noConfusion hh)

/-- `sales.models.SalesOrder`: the fields read or written by
`calculate_totals` (src/System/sales/models.py, lines 69-127).
`customer_discount_percent` stands for `self.customer.discount_percent`,
the discount percent of the customer the order references. -/
structure SalesOrder where
  customer_discount_percent : ℚ
  subtotal : ℚ
  discount_amount : ℚ
  tax_amount : ℚ
  total_amount : ℚ
deriving DecidableEq

/-- `SalesOrder.calculate_totals` (src/System/sales/models.py, lines
112-127): `subtotal` is the sum of the lines' `line_total`,
`discount_amount = subtotal * (customer.discount_percent / 100)`,
`tax_amount` accumulates `calculate_tax(line.line_total)['tax_amount']`
over the lines that have a tax, and
`total_amount = subtotal - discount_amount + tax_amount`.  The final
`self.save(update_fields=['subtotal', 'discount_amount', 'tax_amount',
'total_amount'])` persists exactly the four recomputed fields, which the
returned record reflects. -/
def SalesOrder.calculate_totals (self : SalesOrder) (lines : List DocumentLine) : SalesOrder :=
  let subtotal := lines.foldl (fun s l => s + l.line_total) 0
  let discount_amount := subtotal * (self.customer_discount_percent / 100)
  let tax_amount := lines.foldl
    (fun s l =>
      match l.tax with
      | some t => s + (t.calculate_tax l.line_total).tax_amount
      | none => s) 0
  { self with
    subtotal := subtotal
    discount_amount := discount_amount
    tax_amount := tax_amount
    total_amount := subtotal - discount_amount + tax_amount }

/-- `purchasing.models.PurchaseOrder`: the fields read or written by
`calculate_totals` (src/System/purchasing/models.py, lines 73-145).
`supplier_discount_percent` stands for `self.supplier.discount_percent`. -/
structure PurchaseOrder where
  supplier_discount_percent : ℚ
  subtotal : ℚ
  discount_amount : ℚ
  tax_amount : ℚ
  total_amount : ℚ
deriving DecidableEq

/-- `PurchaseOrder.calculate_totals` (src/System/purchasing/models.py,
lines 130-145); identical in form to `SalesOrder.calculate_totals` with
the supplier in place of the customer. -/
def PurchaseOrder.calculate_totals (self : PurchaseOrder) (lines : List DocumentLine) : PurchaseOrder :=
  let subtotal := lines.foldl (fun s l => s + l.line_total) 0
  let discount_amount := subtotal * (self.supplier_discount_percent / 100)
  let tax_amount := lines.foldl
    (fun s l =>
      match l.tax with
      | some t => s + (t.calculate_tax l.line_total).tax_amount
      | none => s) 0
  { self with
    subtotal := subtotal
    discount_amount := discount_amount
    tax_amount := tax_amount
    total_amount := subtotal - discount_amount + tax_amount }

/-- `sales.models.SalesInvoice`: the fields read or written by
`calculate_totals` (src/System/sales/models.py, lines 229-303).
`due_date` and dates in general are day numbers (`Int`). -/
structure SalesInvoice where
  subtotal : ℚ
  discount_amount : ℚ
  tax_amount : ℚ
  total_amount : ℚ
  paid_amount : ℚ
  outstanding_amount : ℚ
  due_date : Int
  status : String
deriving DecidableEq

/-- `SalesInvoice.calculate_totals` (src/System/sales/models.py, lines
274-303).  `self` is the in-memory instance the method runs on; `row`
is the stored record it persists into (they coincide except when a
caller assigned fields before calling, as `SalesPaymentAllocation.save`
does with `paid_amount`).  `today` is `timezone.now().date()`.

After deriving `subtotal`, `tax_amount`,
`total_amount = subtotal - self.discount_amount + tax_amount` and
`outstanding_amount = total_amount - self.paid_amount`, the status
branch runs: when `paid_amount == 0` the code evaluates
`timezone.now()`, and because `timezone` is not among
`sales_models_imported_names` this raises `NameError` before anything is
saved; otherwise `paid` or `partial_paid` is chosen.  On success,
`self.save(update_fields=['subtotal', 'tax_amount', 'total_amount',
'outstanding_amount', 'status'])` writes exactly those five columns of
`self` onto `row` — `discount_amount` and `paid_amount` are not
persisted. -/
def SalesInvoice.calculate_totals (self row : SalesInvoice) (lines : List DocumentLine)
    (today : Int) : Except CalcError SalesInvoice :=
  let subtotal := lines.foldl (fun s l => s + l.line_total) 0
  let tax_amount := lines.foldl
    (fun s l =>
      match l.tax with
      | some t => s + (t.calculate_tax l.line_total).tax_amount
      | none => s) 0
  let total_amount := subtotal - self.discount_amount + tax_amount
  let outstanding_amount := total_amount - self.paid_amount
  let saved : String → SalesInvoice := fun status =>
    { row with
      subtotal := subtotal
      tax_amount := tax_amount
      total_amount := total_amount
      outstanding_amount := outstanding_amount
      status := status }
  if self.paid_amount = 0 then
    if sales_models_imported_names.contains "timezone" then
      if self.due_date < today then .ok (saved "overdue")
      else if self.status ≠ "draft" then .ok (saved "confirmed")
      else .ok (saved self.status)
    else .error (.nameError "timezone")
  else if self.paid_amount ≥ total_amount then .ok (saved "paid")
  else .ok (saved "partial_paid")

/-- `purchasing.models.PurchaseBill`: the fields read or written by
`calculate_totals` (src/System/purchasing/models.py, lines 282-357). -/
structure PurchaseBill where
  subtotal : ℚ
  discount_amount : ℚ
  tax_amount : ℚ
  total_amount : ℚ
  paid_amount : ℚ
  outstanding_amount : ℚ
  due_date : Int
  status : String
deriving DecidableEq

/-- `PurchaseBill.calculate_totals` (src/System/purchasing/models.py,
lines 328-357); identical in form to `SalesInvoice.calculate_totals`,
with `timezone` equally unbound in purchasing/models.py. -/
def PurchaseBill.calculate_totals (self row : PurchaseBill) (lines : List DocumentLine)
    (today : Int) : Except CalcError PurchaseBill :=
  let subtotal := lines.foldl (fun s l => s + l.line_total) 0
  let tax_amount := lines.foldl
    (fun s l =>
      match l.tax with
      | some t => s + (t.calculate_tax l.line_total).tax_amount
      | none => s) 0
  let total_amount := subtotal - self.discount_amount + tax_amount
  let outstanding_amount := total_amount - self.paid_amount
  let saved : String → PurchaseBill := fun status =>
    { row with
      subtotal := subtotal
      tax_amount := tax_amount
      total_amount := total_amount
      outstanding_amount := outstanding_amount
      status := status }
  if self.paid_amount = 0 then
    if purchasing_models_imported_names.contains "timezone" then
      if self.due_date < today then .ok (saved "overdue")
      else if self.status ≠ "draft" then .ok (saved "confirmed")
      else .ok (saved self.status)
    else .error (.nameError "timezone")
  else if self.paid_amount ≥ total_amount then .ok (saved "paid")
  else .ok (saved "partial_paid")

/-- `SalesPaymentAllocation.save` (src/System/sales/models.py, lines
389-396), after the allocation row itself has been inserted:
`total_allocated` is the `Sum` aggregate over the amounts of all
allocations referencing the invoice (`or 0` when there are none), it is
assigned to the in-memory invoice's `paid_amount`, and
`calculate_totals` runs on that in-memory instance while persisting into
the stored record `invoiceRow` — whose `paid_amount` column
`update_fields` does not include. -/
def SalesPaymentAllocation.save (invoiceRow : SalesInvoice) (allocation_amounts : List ℚ)
    (lines : List DocumentLine) (today : Int) : Except CalcError SalesInvoice :=
  let total_allocated := allocation_amounts.foldl (fun s a => s + a) 0
  let inMemory := { invoiceRow with paid_amount := total_allocated }
  SalesInvoice.calculate_totals inMemory invoiceRow lines today

/-- `PurchasePaymentAllocation.save` (src/System/purchasing/models.py,
lines 446-453); identical in form to `SalesPaymentAllocation.save`. -/
def PurchasePaymentAllocation.save (billRow : PurchaseBill) (allocation_amounts : List ℚ)
    (lines : List DocumentLine) (today : Int) : Except CalcError PurchaseBill :=
  let total_allocated := allocation_amounts.foldl (fun s a => s + a) 0
  let inMemory := { billRow with paid_amount := total_allocated }
  PurchaseBill.calculate_totals inMemory billRow lines today

/-- One invoice/bill line of quantity 10 at unit price 100, no discount,
no tax: `line_total = 1000`. -/
def lines1000 : List DocumentLine := [⟨10, 100, 1000, 0, 0, none⟩]

/-- `accounting.models.ChartOfAccount`: the fields read or written by
`get_balance` and `post_entry` (src/System/accounting/models.py, lines
10-48).  `account_type` is one of "asset", "liability", "equity",
"income", "expense"; `balance` is the cached balance column. -/
structure ChartOfAccount where
  id : Nat
  account_type : String
  balance : ℚ
deriving DecidableEq

/-- `accounting.models.JournalEntry` row (src/System/accounting/models.py,
lines 50-64): `status` is "draft", "posted" or "reversed"; `posted_by`
is a user id, `posted_date` a timestamp. -/
structure JournalEntry where
  id : Nat
  status : String
  posted_by : Option Nat
  posted_date : Option Nat
deriving DecidableEq

/-- `accounting.models.JournalLine` row (src/System/accounting/models.py,
lines 96-105): foreign keys by id, `entry_type` is "debit" or
"credit". -/
structure JournalLine where
  journal_entry : Nat
  account : Nat
  entry_type : String
  amount : ℚ
deriving DecidableEq

/-- The stored state the accounting model methods query and update:
the `ChartOfAccount`, `JournalEntry` and `JournalLine` tables. -/
structure LedgerDB where
  accounts : List ChartOfAccount
  entries : List JournalEntry
  lines : List JournalLine
deriving DecidableEq

/-- `queryset.filter(entry_type=t).aggregate(total=Sum('amount'))['total']
or 0`: sum of the amounts of the lines with the given entry type,
0 when there are none. -/
def sumOfType (ls : List JournalLine) (t : String) : ℚ :=
  (ls.filter (fun l => l.entry_type == t)).foldl (fun s l => s + l.amount) 0

/-- `self.journal_entries` on a `ChartOfAccount`: all journal lines
referencing the account (related name of `JournalLine.account`),
whatever the status of their journal entry. -/
def LedgerDB.linesOfAccount (db : LedgerDB) (aid : Nat) : List JournalLine :=
  db.lines.filter (fun l => l.account == aid)

/-- `self.journal_lines` on a `JournalEntry`: all journal lines
referencing the entry. -/
def LedgerDB.linesOfEntry (db : LedgerDB) (eid : Nat) : List JournalLine :=
  db.lines.filter (fun l => l.journal_entry == eid)

/-- `ChartOfAccount.get_balance` (src/System/accounting/models.py, lines
37-48): debit and credit sums over `self.journal_entries` — filtered by
`entry_type` only, with no filter on the journal entry's status — and
then `debit - credit` for asset/expense accounts, `credit - debit`
otherwise. -/
def ChartOfAccount.get_balance (self : ChartOfAccount) (db : LedgerDB) : ℚ :=
  let debit_total := sumOfType (db.linesOfAccount self.id) "debit"
  let credit_total := sumOfType (db.linesOfAccount self.id) "credit"
  if self.account_type = "asset" ∨ self.account_type = "expense" then
    debit_total - credit_total
  else
    credit_total - debit_total

/-- The debit total `post_entry` validates:
`self.journal_lines.filter(entry_type='debit').aggregate(Sum('amount'))
or 0`. -/
def LedgerDB.debitTotal (db : LedgerDB) (eid : Nat) : ℚ :=
  sumOfType (db.linesOfEntry eid) "debit"

/-- The credit total `post_entry` validates. -/
def LedgerDB.creditTotal (db : LedgerDB) (eid : Nat) : ℚ :=
  sumOfType (db.linesOfEntry eid) "credit"

/-- The `ValueError`s `post_entry` raises: "Entry already posted", and
"Debit (d) must equal Credit (c)" carrying both totals. -/
inductive PostError where
  | alreadyPosted
  | unbalanced (debit_total credit_total : ℚ)
deriving DecidableEq

/-- `self.save()` on a journal entry: write the instance back over the
rows with its id. -/
def LedgerDB.saveEntry (db : LedgerDB) (e : JournalEntry) : LedgerDB :=
  { db with entries := db.entries.map (fun x => if x.id == e.id then e else x) }

/-- `line.account.balance = line.account.get_balance();
line.account.save()`: recompute the cached balance of the account with
the given id from the current state and write it back. -/
def LedgerDB.saveAccountBalance (db : LedgerDB) (aid : Nat) : LedgerDB :=
  { db with accounts :=
      db.accounts.map fun a =>
        if a.id == aid then { a with balance := a.get_balance db } else a }

/-- `JournalEntry.post_entry` (src/System/accounting/models.py, lines
72-94): raise on an already posted entry; compute the debit and credit
totals of the entry's lines and raise carrying both when they differ;
otherwise set status/posted_by/posted_date, save, and recompute the
cached balance of each line's account.  `user` is the posting actor,
`now` the value of `timezone.now()`. -/
def JournalEntry.post_entry (self : JournalEntry) (db : LedgerDB) (user : Nat)
    (now : Nat) : Except PostError LedgerDB :=
  if self.status = "posted" then
    .error .alreadyPosted
  else if db.debitTotal self.id ≠ db.creditTotal self.id then
    .error (.unbalanced (db.debitTotal self.id) (db.creditTotal self.id))
  else
    let posted : JournalEntry :=
      { self with status := "posted", posted_by := some user, posted_date := some now }
    let db1 := db.saveEntry posted
    .ok ((db1.linesOfEntry self.id).foldl (fun d l => d.saveAccountBalance l.account) db1)

/-- The end-to-end scenario's ledger: a Cash asset account and a Revenue
income account, both with cached balance 0, and one draft journal entry
debiting Cash 1000 and crediting Revenue 1000. -/
def ledgerC2 : LedgerDB :=
  { accounts := [⟨1, "asset", 0⟩, ⟨2, "income", 0⟩]
    entries := [⟨1, "draft", none, none⟩]
    lines := [⟨1, 1, "debit", 1000⟩, ⟨1, 2, "credit", 1000⟩] }

/-- `ledgerC2` after `post_entry(user 7, now 99)` succeeds. -/
def ledgerC2posted : LedgerDB :=
  { accounts := [⟨1, "asset", 1000⟩, ⟨2, "income", 1000⟩]
    entries := [⟨1, "posted", some 7, some 99⟩]
    lines := [⟨1, 1, "debit", 1000⟩, ⟨1, 2, "credit", 1000⟩] }

/-- A ledger holding an asset account whose only referencing line is a
debit of 500 belonging to a draft journal entry. -/
def draftLedgerC3 : LedgerDB :=
  { accounts := [⟨1, "asset", 0⟩]
    entries := [⟨1, "draft", none, none⟩]
    lines := [⟨1, 1, "debit", 500⟩] }

/-- A ledger holding one account whose referencing lines, all belonging
to a posted entry, are a debit of 500 and a credit of 200. -/
def postedLedgerC3 : LedgerDB :=
  { accounts := [⟨1, "asset", 0⟩]
    entries := [⟨1, "posted", some 7, some 99⟩]
    lines := [⟨1, 1, "debit", 500⟩, ⟨1, 1, "credit", 200⟩] }

/-- The balance-equality invariant of the spec: every posted journal
entry has equal debit and credit line totals. -/
def LedgerDB.postedBalanced (db : LedgerDB) : Prop :=
  ∀ e ∈ db.entries, e.status = "posted" → db.debitTotal e.id = db.creditTotal e.id

lemma saveEntry_lines (db : LedgerDB) (e : JournalEntry) :
    (db.saveEntry e).lines = db.lines := rfl

lemma saveEntry_accounts (db : LedgerDB) (e : JournalEntry) :
    (db.saveEntry e).accounts = db.accounts := rfl

lemma saveAccountBalance_lines (db : LedgerDB) (aid : Nat) :
    (db.saveAccountBalance aid).lines = db.lines := rfl

lemma saveAccountBalance_entries (db : LedgerDB) (aid : Nat) :
    (db.saveAccountBalance aid).entries = db.entries := rfl

lemma foldl_saveAccountBalance_lines (ls : List JournalLine) (db : LedgerDB) :
    (ls.foldl (fun d l => d.saveAccountBalance l.account) db).lines = db.lines := by
  induction ls generalizing db with
  | nil => rfl
  | cons l ls ih => exact ih (db.saveAccountBalance l.account)

lemma foldl_saveAccountBalance_entries (ls : List JournalLine) (db : LedgerDB) :
    (ls.foldl (fun d l => d.saveAccountBalance l.account) db).entries = db.entries := by
  induction ls generalizing db with
  | nil => rfl
  | cons l ls ih => exact ih (db.saveAccountBalance l.account)

lemma get_balance_congr (a : ChartOfAccount) (d1 d2 : LedgerDB) (h : d1.lines = d2.lines) :
    a.get_balance d1 = a.get_balance d2 := by
  unfold ChartOfAccount.get_balance LedgerDB.linesOfAccount
  rw [h]

lemma debitTotal_congr (d1 d2 : LedgerDB) (h : d1.lines = d2.lines) (eid : Nat) :
    d1.debitTotal eid = d2.debitTotal eid := by
  unfold LedgerDB.debitTotal LedgerDB.linesOfEntry
  rw [h]

lemma creditTotal_congr (d1 d2 : LedgerDB) (h : d1.lines = d2.lines) (eid : Nat) :
    d1.creditTotal eid = d2.creditTotal eid := by
  unfold LedgerDB.creditTotal LedgerDB.linesOfEntry
  rw [h]

lemma mem_saveEntry_entries {db : LedgerDB} {en e2 : JournalEntry}
    (h : e2 ∈ (db.saveEntry en).entries) : e2 = en ∨ e2 ∈ db.entries := by
  unfold LedgerDB.saveEntry at h
  simp only [List.mem_map] at h
  obtain ⟨x, hx, hfx⟩ := h
  by_cases hid : (x.id == en.id) = true
  · rw [if_pos hid] at hfx
    exact Or.inl hfx.symm
  · rw [if_neg hid] at hfx
    exact Or.inr (hfx ▸ hx)

lemma mem_saveEntry_eq_of_id {db : LedgerDB} {en e2 : JournalEntry}
    (h : e2 ∈ (db.saveEntry en).entries) (hid : e2.id = en.id) : e2 = en := by
  unfold LedgerDB.saveEntry at h
  simp only [List.mem_map] at h
  obtain ⟨x, _, hfx⟩ := h
  by_cases hx : (x.id == en.id) = true
  · rw [if_pos hx] at hfx
    exact hfx.symm
  · rw [if_neg hx] at hfx
    exact absurd (beq_iff_eq.mpr (hfx ▸ hid)) hx

lemma foldl_saveAccountBalance_accounts (ls : List JournalLine) (db : LedgerDB) :
    (ls.foldl (fun d l => d.saveAccountBalance l.account) db).accounts
      = db.accounts.map fun a =>
          if ls.any (fun l => a.id == l.account) then
            { a with balance := a.get_balance db }
          else a := by
  induction ls generalizing db with
  | nil => simp
  | cons l ls ih =>
    rw [List.foldl_cons, ih]
    have hacc : (db.saveAccountBalance l.account).accounts
        = db.accounts.map fun a =>
            if a.id == l.account then { a with balance := a.get_balance db } else a := rfl
    rw [hacc, List.map_map]
    congr 1
    funext a
    by_cases h1 : (a.id == l.account) = true <;>
      by_cases h2 : ls.any (fun l2 => a.id == l2.account) = true <;>
        simp [Function.comp, h1, h2, List.any_cons, LedgerDB.saveAccountBalance,
          ChartOfAccount.get_balance, LedgerDB.linesOfAccount]

/-- Claim C1: posting a draft journal entry whose debit and credit line
totals differ fails with the unbalanced-entry error carrying both
totals, leaving the stored state (and hence the entry's draft status)
unchanged; and posting preserves the invariant that every posted entry
has equal debit and credit totals. -/
theorem claim_C1 :
    (∀ (db : LedgerDB) (e : JournalEntry) (user now : Nat),
        e.status = "draft" →
        db.debitTotal e.id ≠ db.creditTotal e.id →
        e.post_entry db user now
          = .error (.unbalanced (db.debitTotal e.id) (db.creditTotal e.id)))
    ∧ (∀ (db : LedgerDB) (e : JournalEntry) (user now : Nat) (db2 : LedgerDB),
        e.post_entry db user now = .ok db2 →
        db.postedBalanced → db2.postedBalanced) := by
  constructor
  · intro db e user now h1 h2
    have hne : e.status ≠ "posted" := by rw [h1]; decide
    unfold JournalEntry.post_entry
    rw [if_neg hne, if_pos h2]
  · intro db e user now db2 hok hinv
    revert hok
    unfold JournalEntry.post_entry
    by_cases h1 : e.status = "posted"
    · rw [if_pos h1]
      intro h
      exact Except.noConfusion h
    · rw [if_neg h1]
      by_cases h2 : db.debitTotal e.id ≠ db.creditTotal e.id
      · rw [if_pos h2]
        intro h
        exact Except.noConfusion h
      · rw [if_neg h2]
        have hbal : db.debitTotal e.id = db.creditTotal e.id := not_not.mp h2
        intro h
        injection h with hdb
        subst hdb
        intro e2 he2 hs2
        have hl : ((((db.saveEntry
            { e with status := "posted", posted_by := some user, posted_date := some now
              }).linesOfEntry e.id).foldl (fun d l => d.saveAccountBalance l.account)
            (db.saveEntry
              { e with status := "posted", posted_by := some user, posted_date := some now
                }))).lines = db.lines := by
          rw [foldl_saveAccountBalance_lines, saveEntry_lines]
        rw [debitTotal_congr _ db hl, creditTotal_congr _ db hl]
        rw [foldl_saveAccountBalance_entries] at he2
        rcases mem_saveEntry_entries he2 with heq | hmem
        · subst heq
          exact hbal
        · exact hinv e2 hmem hs2

/-- Witness for C1 at concrete inputs: posting the unbalanced draft
ledger fails carrying totals 500 and 0, and posting the balanced
scenario ledger yields a state in which every posted entry balances. -/
theorem claim_C1_witness :
    JournalEntry.post_entry ⟨1, "draft", none, none⟩ draftLedgerC3 7 99
        = .error (.unbalanced (draftLedgerC3.debitTotal 1) (draftLedgerC3.creditTotal 1))
    ∧ ledgerC2posted.postedBalanced := by
  constructor
  · exact claim_C1.1 draftLedgerC3 ⟨1, "draft", none, none⟩ 7 99 rfl (by decide)
  · exact claim_C1.2 ledgerC2 ⟨1, "draft", none, none⟩ 7 99 ledgerC2posted (by decide)
      (by unfold LedgerDB.postedBalanced; decide)

/-- Claim C2: posting a draft journal entry whose debit total equals its
credit total succeeds; afterwards the entry is posted with
posted_by = actor and posted_date = now, and the cached balance of
every account referenced by the entry's lines equals its derived
balance; in the concrete scenario, posting the entry that debits Cash
1000 and credits Revenue 1000 raises both cached balances from 0 to
1000. -/
theorem claim_C2 :
    (∀ (db : LedgerDB) (e : JournalEntry) (user now : Nat),
        e.status = "draft" →
        db.debitTotal e.id = db.creditTotal e.id →
        ∃ db2, e.post_entry db user now = .ok db2
          ∧ (∀ e2 ∈ db2.entries, e2.id = e.id →
              e2.status = "posted" ∧ e2.posted_by = some user ∧ e2.posted_date = some now)
          ∧ (∀ a ∈ db2.accounts,
              (db.linesOfEntry e.id).any (fun l => a.id == l.account) = true →
              a.balance = a.get_balance db2))
    ∧ JournalEntry.post_entry ⟨1, "draft", none, none⟩ ledgerC2 7 99 = .ok ledgerC2posted := by
  constructor
  · intro db e user now h1 h2
    have hne : e.status ≠ "posted" := by rw [h1]; decide
    have hpost : e.post_entry db user now = .ok ((((db.saveEntry
        { e with status := "posted", posted_by := some user, posted_date := some now
          }).linesOfEntry e.id).foldl (fun d l => d.saveAccountBalance l.account)
        (db.saveEntry
          { e with status := "posted", posted_by := some user, posted_date := some now
            }))) := by
      unfold JournalEntry.post_entry
      rw [if_neg hne, if_neg (not_not_intro h2)]
    refine ⟨_, hpost, ?_, ?_⟩
    · intro e2 he2 hid
      rw [foldl_saveAccountBalance_entries] at he2
      have he2' := mem_saveEntry_eq_of_id he2 hid
      subst he2'
      exact ⟨rfl, rfl, rfl⟩
    · intro a ha hany
      have hlines1 : (db.saveEntry
          { e with status := "posted", posted_by := some user, posted_date := some now
            }).linesOfEntry e.id = db.linesOfEntry e.id := rfl
      rw [foldl_saveAccountBalance_accounts, saveEntry_accounts] at ha
      obtain ⟨a0, ha0, hga⟩ := List.mem_map.mp ha
      by_cases hc : ((db.saveEntry
          { e with status := "posted", posted_by := some user, posted_date := some now
            }).linesOfEntry e.id).any (fun l2 => a0.id == l2.account) = true
      · rw [if_pos hc] at hga
        subst hga
        have hl2 : ((((db.saveEntry
            { e with status := "posted", posted_by := some user, posted_date := some now
              }).linesOfEntry e.id).foldl (fun d l => d.saveAccountBalance l.account)
            (db.saveEntry
              { e with status := "posted", posted_by := some user, posted_date := some now
                }))).lines = (db.saveEntry
            { e with status := "posted", posted_by := some user, posted_date := some now
              }).lines := foldl_saveAccountBalance_lines _ _
        rw [get_balance_congr _ _ _ hl2]
        rfl
      · rw [if_neg hc] at hga
        subst hga
        exact absurd hany hc
  · decide

/-- Witness for C2: the general statement applied to the concrete
end-to-end scenario ledger. -/
theorem claim_C2_witness :
    ∃ db2, JournalEntry.post_entry ⟨1, "draft", none, none⟩ ledgerC2 7 99 = .ok db2
      ∧ (∀ e2 ∈ db2.entries, e2.id = 1 →
          e2.status = "posted" ∧ e2.posted_by = some 7 ∧ e2.posted_date = some 99)
      ∧ (∀ a ∈ db2.accounts,
          (ledgerC2.linesOfEntry 1).any (fun l => a.id == l.account) = true →
          a.balance = a.get_balance db2) :=
  claim_C2.1 ledgerC2 ⟨1, "draft", none, none⟩ 7 99 rfl (by decide)

/-- Claim C3 failing input: `get_balance` puts no status filter on the
journal lines it sums, so a single debit line of 500 belonging to a
draft entry already gives an asset account balance 500 (the claim and
spec require 0, since only posted entries should count).  The spec's
posted-line examples do hold: posted debits 500 and credits 200 give
300 on an asset account and -300 on a liability account. -/
theorem claim_C3 :
    ChartOfAccount.get_balance ⟨1, "asset", 0⟩ draftLedgerC3 = 500
    ∧ ChartOfAccount.get_balance ⟨1, "asset", 0⟩ postedLedgerC3 = 300
    ∧ ChartOfAccount.get_balance ⟨1, "liability", 0⟩ postedLedgerC3 = -300 := by
  refine ⟨by decide, by decide, by decide⟩

/-- Claim C4 failing input: recomputing a document with `paid_amount = 0`
raises `NameError` for `timezone` instead of deriving overdue/confirmed
or leaving draft (first and fourth conjuncts — due yesterday and due in
the future respectively).  The `paid_amount != 0` rules do behave as the
claim states: paying 1000 of 1000 gives "paid", paying 400 gives
"partial_paid" with the derived totals. -/
theorem claim_C4 :
    SalesInvoice.calculate_totals ⟨0, 0, 0, 0, 0, 0, -1, "confirmed"⟩
        ⟨0, 0, 0, 0, 0, 0, -1, "confirmed"⟩ lines1000 0
      = .error (.nameError "timezone")
    ∧ SalesInvoice.calculate_totals ⟨0, 0, 0, 0, 1000, 0, -1, "confirmed"⟩
        ⟨0, 0, 0, 0, 1000, 0, -1, "confirmed"⟩ lines1000 0
      = .ok ⟨1000, 0, 0, 1000, 1000, 0, -1, "paid"⟩
    ∧ SalesInvoice.calculate_totals ⟨0, 0, 0, 0, 400, 0, -1, "confirmed"⟩
        ⟨0, 0, 0, 0, 400, 0, -1, "confirmed"⟩ lines1000 0
      = .ok ⟨1000, 0, 0, 1000, 400, 600, -1, "partial_paid"⟩
    ∧ SalesInvoice.calculate_totals ⟨0, 0, 0, 0, 0, 0, 5, "draft"⟩
        ⟨0, 0, 0, 0, 0, 0, 5, "draft"⟩ lines1000 0
      = .error (.nameError "timezone")
    ∧ PurchaseBill.calculate_totals ⟨0, 0, 0, 0, 0, 0, -1, "confirmed"⟩
        ⟨0, 0, 0, 0, 0, 0, -1, "confirmed"⟩ lines1000 0
      = .error (.nameError "timezone") := by
  refine ⟨by decide, by decide, by decide, by decide, by decide⟩

/-- Claim C5: `timezone` is bound by neither model module's imports, so
recomputing the totals of any sales invoice or purchase bill whose
`paid_amount` is 0 — whatever its lines, stored row, due date or
status — raises `NameError("timezone")` rather than completing or
raising a domain error. -/
theorem claim_C5 :
    sales_models_imported_names.contains "timezone" = false
    ∧ purchasing_models_imported_names.contains "timezone" = false
    ∧ (∀ (self row : SalesInvoice) (lines : List DocumentLine) (today : Int),
        self.paid_amount = 0 →
        SalesInvoice.calculate_totals self row lines today = .error (.nameError "timezone"))
    ∧ (∀ (self row : PurchaseBill) (lines : List DocumentLine) (today : Int),
        self.paid_amount = 0 →
        PurchaseBill.calculate_totals self row lines today = .error (.nameError "timezone")) := by
  refine ⟨by decide, by decide, ?_, ?_⟩
  · intro self row lines today hp
    unfold SalesInvoice.calculate_totals
    rw [if_pos hp, if_neg (by decide :
      ¬(sales_models_imported_names.contains "timezone" = true))]
  · intro self row lines today hp
    unfold PurchaseBill.calculate_totals
    rw [if_pos hp, if_neg (by decide :
      ¬(purchasing_models_imported_names.contains "timezone" = true))]

/-- Witness for C5: the concrete zero-paid invoice and bill. -/
theorem claim_C5_witness :
    SalesInvoice.calculate_totals ⟨0, 0, 0, 0, 0, 0, -1, "confirmed"⟩
        ⟨0, 0, 0, 0, 0, 0, -1, "confirmed"⟩ [] 0 = .error (.nameError "timezone")
    ∧ PurchaseBill.calculate_totals ⟨0, 0, 0, 0, 0, 0, -1, "confirmed"⟩
        ⟨0, 0, 0, 0, 0, 0, -1, "confirmed"⟩ [] 0 = .error (.nameError "timezone") :=
  ⟨claim_C5.2.2.1 ⟨0, 0, 0, 0, 0, 0, -1, "confirmed"⟩ ⟨0, 0, 0, 0, 0, 0, -1, "confirmed"⟩ [] 0 rfl,
   claim_C5.2.2.2 ⟨0, 0, 0, 0, 0, 0, -1, "confirmed"⟩ ⟨0, 0, 0, 0, 0, 0, -1, "confirmed"⟩ [] 0 rfl⟩

/-- Claim C6 failing input: allocating 400 against an invoice/bill whose
lines total 1000 and whose stored `paid_amount` is 0.  The allocation
save computes `paid_amount = 400` in memory and persists
`outstanding_amount = 600` and status "partial_paid", but
`update_fields` omits `paid_amount`, so the stored record keeps
`paid_amount = 0` — visible in the result, whose stored row then
violates `outstanding = total - paid`. -/
theorem claim_C6 :
    SalesPaymentAllocation.save ⟨0, 0, 0, 0, 0, 0, -1, "confirmed"⟩ [400] lines1000 0
      = .ok ⟨1000, 0, 0, 1000, 0, 600, -1, "partial_paid"⟩
    ∧ PurchasePaymentAllocation.save ⟨0, 0, 0, 0, 0, 0, -1, "confirmed"⟩ [400] lines1000 0
      = .ok ⟨1000, 0, 0, 1000, 0, 600, -1, "partial_paid"⟩ := by
  refine ⟨by decide, by decide⟩

lemma foldl_add_line_total (lines : List DocumentLine) (init : ℚ) :
    lines.foldl (fun s l => s + l.line_total) init
      = init + (lines.map fun l => l.line_total).sum := by
  induction lines generalizing init with
  | nil => simp
  | cons l ls ih => simp [List.foldl_cons, ih, add_assoc]

lemma foldl_add_tax (lines : List DocumentLine) (init : ℚ) :
    lines.foldl
      (fun s l =>
        match l.tax with
        | some t => s + (t.calculate_tax l.line_total).tax_amount
        | none => s) init
      = init + (lines.map lineTaxAmount).sum := by
  induction lines generalizing init with
  | nil => simp
  | cons l ls ih =>
    cases htax : l.tax with
    | none => simp [List.foldl_cons, htax, ih, lineTaxAmount]
    | some t => simp [List.foldl_cons, htax, ih, lineTaxAmount, add_assoc]

/-- Claim C7: recomputation derives `subtotal` as the sum of the current
lines' totals, `tax_amount` as the sum of the per-line tax amounts of
the lines with a tax, and `total_amount = subtotal - discount_amount +
tax_amount`, where `discount_amount = subtotal * party.discount_percent
/ 100` is recomputed for order documents but, whenever the recomputation
of a bill/invoice completes, left at its prior value there. -/
theorem claim_C7 :
    (∀ (o : SalesOrder) (lines : List DocumentLine),
      (o.calculate_totals lines).subtotal = (lines.map fun l => l.line_total).sum
      ∧ (o.calculate_totals lines).discount_amount
          = (o.calculate_totals lines).subtotal * o.customer_discount_percent / 100
      ∧ (o.calculate_totals lines).tax_amount = (lines.map lineTaxAmount).sum
      ∧ (o.calculate_totals lines).total_amount
          = (o.calculate_totals lines).subtotal - (o.calculate_totals lines).discount_amount
            + (o.calculate_totals lines).tax_amount)
    ∧ (∀ (o : PurchaseOrder) (lines : List DocumentLine),
      (o.calculate_totals lines).subtotal = (lines.map fun l => l.line_total).sum
      ∧ (o.calculate_totals lines).discount_amount
          = (o.calculate_totals lines).subtotal * o.supplier_discount_percent / 100
      ∧ (o.calculate_totals lines).tax_amount = (lines.map lineTaxAmount).sum
      ∧ (o.calculate_totals lines).total_amount
          = (o.calculate_totals lines).subtotal - (o.calculate_totals lines).discount_amount
            + (o.calculate_totals lines).tax_amount)
    ∧ (∀ (inv : SalesInvoice) (lines : List DocumentLine) (today : Int) (r : SalesInvoice),
        SalesInvoice.calculate_totals inv inv lines today = .ok r →
        r.subtotal = (lines.map fun l => l.line_total).sum
        ∧ r.discount_amount = inv.discount_amount
        ∧ r.tax_amount = (lines.map lineTaxAmount).sum
        ∧ r.total_amount = r.subtotal - r.discount_amount + r.tax_amount)
    ∧ (∀ (b : PurchaseBill) (lines : List DocumentLine) (today : Int) (r : PurchaseBill),
        PurchaseBill.calculate_totals b b lines today = .ok r →
        r.subtotal = (lines.map fun l => l.line_total).sum
        ∧ r.discount_amount = b.discount_amount
        ∧ r.tax_amount = (lines.map lineTaxAmount).sum
        ∧ r.total_amount = r.subtotal - r.discount_amount + r.tax_amount) := by
  refine ⟨?_, ?_, ?_, ?_⟩
  · intro o lines
    refine ⟨?_, ?_, ?_, ?_⟩ <;>
      simp [SalesOrder.calculate_totals, foldl_add_line_total, foldl_add_tax, mul_div_assoc]
  · intro o lines
    refine ⟨?_, ?_, ?_, ?_⟩ <;>
      simp [PurchaseOrder.calculate_totals, foldl_add_line_total, foldl_add_tax, mul_div_assoc]
  · intro inv lines today r hok
    unfold SalesInvoice.calculate_totals at hok
    by_cases hp : inv.paid_amount = 0
    · rw [if_pos hp, if_neg (by decide :
        ¬(sales_models_imported_names.contains "timezone" = true))] at hok
      exact Except.noConfusion hok
    · rw [if_neg hp] at hok
      split at hok <;>
      · injection hok with hr
        subst hr
        refine ⟨?_, rfl, ?_, rfl⟩ <;>
          simp [foldl_add_line_total, foldl_add_tax]
  · intro b lines today r hok
    unfold PurchaseBill.calculate_totals at hok
    by_cases hp : b.paid_amount = 0
    · rw [if_pos hp, if_neg (by decide :
        ¬(purchasing_models_imported_names.contains "timezone" = true))] at hok
      exact Except.noConfusion hok
    · rw [if_neg hp] at hok
      split at hok <;>
      · injection hok with hr
        subst hr
        refine ⟨?_, rfl, ?_, rfl⟩ <;>
          simp [foldl_add_line_total, foldl_add_tax]

/-- Witness for C7: the bill/invoice conjuncts applied to a concrete
invoice and bill with 400 paid of a 1000 total. -/
theorem claim_C7_witness :
    ((⟨1000, 0, 0, 1000, 400, 600, -1, "partial_paid"⟩ : SalesInvoice).subtotal
        = (lines1000.map fun l => l.line_total).sum
      ∧ (⟨1000, 0, 0, 1000, 400, 600, -1, "partial_paid"⟩ : SalesInvoice).discount_amount
        = (⟨0, 0, 0, 0, 400, 0, -1, "confirmed"⟩ : SalesInvoice).discount_amount
      ∧ (⟨1000, 0, 0, 1000, 400, 600, -1, "partial_paid"⟩ : SalesInvoice).tax_amount
        = (lines1000.map lineTaxAmount).sum
      ∧ (⟨1000, 0, 0, 1000, 400, 600, -1, "partial_paid"⟩ : SalesInvoice).total_amount
        = (⟨1000, 0, 0, 1000, 400, 600, -1, "partial_paid"⟩ : SalesInvoice).subtotal
          - (⟨1000, 0, 0, 1000, 400, 600, -1, "partial_paid"⟩ : SalesInvoice).discount_amount
          + (⟨1000, 0, 0, 1000, 400, 600, -1, "partial_paid"⟩ : SalesInvoice).tax_amount)
    ∧ ((⟨1000, 0, 0, 1000, 400, 600, -1, "partial_paid"⟩ : PurchaseBill).subtotal
        = (lines1000.map fun l => l.line_total).sum
      ∧ (⟨1000, 0, 0, 1000, 400, 600, -1, "partial_paid"⟩ : PurchaseBill).discount_amount
        = (⟨0, 0, 0, 0, 400, 0, -1, "confirmed"⟩ : PurchaseBill).discount_amount
      ∧ (⟨1000, 0, 0, 1000, 400, 600, -1, "partial_paid"⟩ : PurchaseBill).tax_amount
        = (lines1000.map lineTaxAmount).sum
      ∧ (⟨1000, 0, 0, 1000, 400, 600, -1, "partial_paid"⟩ : PurchaseBill).total_amount
        = (⟨1000, 0, 0, 1000, 400, 600, -1, "partial_paid"⟩ : PurchaseBill).subtotal
          - (⟨1000, 0, 0, 1000, 400, 600, -1, "partial_paid"⟩ : PurchaseBill).discount_amount
          + (⟨1000, 0, 0, 1000, 400, 600, -1, "partial_paid"⟩ : PurchaseBill).tax_amount) :=
  ⟨claim_C7.2.2.1 ⟨0, 0, 0, 0, 400, 0, -1, "confirmed"⟩ lines1000 0
      ⟨1000, 0, 0, 1000, 400, 600, -1, "partial_paid"⟩ (by decide),
   claim_C7.2.2.2 ⟨0, 0, 0, 0, 400, 0, -1, "confirmed"⟩ lines1000 0
      ⟨1000, 0, 0, 1000, 400, 600, -1, "partial_paid"⟩ (by decide)⟩

/-- Counterexample to claim C8 as stated: a line with
`discount_percent = 0` but a nonzero stored `discount_amount` of 50
(quantity 1, unit price 100) keeps that stored value on save — the
`if self.discount_percent > 0` guard skips the recomputation — so the
saved `discount_amount` is 50, not `quantity * unit_price *
discount_percent / 100 = 0`. -/
theorem claim_C8_counterexample :
    (SalesOrderLine.save ⟨1, 100, 0, 0, 50, none⟩).discount_amount
      ≠ (⟨1, 100, 0, 0, 50, none⟩ : DocumentLine).quantity
        * (⟨1, 100, 0, 0, 50, none⟩ : DocumentLine).unit_price
        * (⟨1, 100, 0, 0, 50, none⟩ : DocumentLine).discount_percent / 100 := by decide

/-- Claim C8 as amended: saving a line sets
`discount_amount = quantity * unit_price * discount_percent / 100` when
`discount_percent > 0` and leaves the stored `discount_amount`
unchanged when `discount_percent = 0` (hence zero exactly when it
already was zero, e.g. the field default), and always sets
`line_total = quantity * unit_price - discount_amount`; quantity 10,
unit price 100, discount 10% on a fresh line yields discount_amount 100
and line_total 900. -/
theorem claim_C8 :
    (∀ (l : DocumentLine),
      0 ≤ l.quantity → 0 ≤ l.unit_price →
      0 ≤ l.discount_percent → l.discount_percent ≤ 100 →
      (0 < l.discount_percent →
          (SalesOrderLine.save l).discount_amount
            = l.quantity * l.unit_price * l.discount_percent / 100
          ∧ (PurchaseOrderLine.save l).discount_amount
            = l.quantity * l.unit_price * l.discount_percent / 100)
      ∧ (l.discount_percent = 0 →
          (SalesOrderLine.save l).discount_amount = l.discount_amount
          ∧ (PurchaseOrderLine.save l).discount_amount = l.discount_amount)
      ∧ (SalesOrderLine.save l).line_total
          = l.quantity * l.unit_price - (SalesOrderLine.save l).discount_amount
      ∧ (PurchaseOrderLine.save l).line_total
          = l.quantity * l.unit_price - (PurchaseOrderLine.save l).discount_amount)
    ∧ SalesOrderLine.save ⟨10, 100, 0, 10, 0, none⟩ = ⟨10, 100, 900, 10, 100, none⟩
    ∧ PurchaseOrderLine.save ⟨10, 100, 0, 10, 0, none⟩ = ⟨10, 100, 900, 10, 100, none⟩ := by
  refine ⟨?_, by decide, by decide⟩
  intro l h1 h2 h3 h4
  refine ⟨?_, ?_, ?_, ?_⟩
  · intro hpos
    constructor <;>
      simp [SalesOrderLine.save, PurchaseOrderLine.save, hpos, mul_div_assoc]
  · intro hz
    have hneg : ¬(l.discount_percent > 0) := by rw [hz]; exact lt_irrefl 0
    constructor <;>
      simp [SalesOrderLine.save, PurchaseOrderLine.save, hneg]
  · by_cases hpos : l.discount_percent > 0 <;>
      simp [SalesOrderLine.save, hpos]
  · by_cases hpos : l.discount_percent > 0 <;>
      simp [PurchaseOrderLine.save, hpos]

/-- Witness for C8 at the spec's example line (quantity 10, unit price
100, discount 10%). -/
theorem claim_C8_witness :
    (SalesOrderLine.save ⟨10, 100, 0, 10, 0, none⟩).discount_amount
      = (10 : ℚ) * 100 * 10 / 100 := by
  have h := claim_C8.1 ⟨10, 100, 0, 10, 0, none⟩
    (by norm_num) (by norm_num) (by norm_num) (by norm_num)
  exact (h.1 (by norm_num)).1

/-- Claim C9: for any rate in [0, 1], the tax calculator returns
`tax_amount = amount * rate / (1 + rate)` and
`base_amount = amount - tax_amount` when inclusive (so the returned
total is the rounded amount itself), `base_amount = amount` and
`tax_amount = amount * rate` when exclusive, with
`total_amount = base_amount + tax_amount`, each value rounded to two
decimal places under the single fixed round-half-to-even policy
(0.005 rounds to 0.00, 0.015 and 0.025 both round to 0.02). -/
theorem claim_C9 :
    ∀ (t : Tax) (amount : ℚ), 0 ≤ t.rate → t.rate ≤ 1 →
      (t.is_inclusive = true →
        (t.calculate_tax amount).tax_amount = round2 (amount * t.rate / (1 + t.rate))
        ∧ (t.calculate_tax amount).base_amount
            = round2 (amount - amount * t.rate / (1 + t.rate))
        ∧ (t.calculate_tax amount).total_amount = round2 amount)
      ∧ (t.is_inclusive = false →
        (t.calculate_tax amount).base_amount = round2 amount
        ∧ (t.calculate_tax amount).tax_amount = round2 (amount * t.rate)
        ∧ (t.calculate_tax amount).total_amount = round2 (amount + amount * t.rate))
      ∧ (round2 (1/200) = 0 ∧ round2 (3/200) = 1/50 ∧ round2 (1/40) = 1/50) := by
  intro t amount h0 h1
  refine ⟨fun hinc => ⟨?_, ?_, ?_⟩, fun hexc => ⟨?_, ?_, ?_⟩, by decide, by decide, by decide⟩
  · simp [Tax.calculate_tax, hinc]
  · simp [Tax.calculate_tax, hinc]
  · simp [Tax.calculate_tax, hinc, sub_add_cancel]
  · simp [Tax.calculate_tax, hexc]
  · simp [Tax.calculate_tax, hexc]
  · simp [Tax.calculate_tax, hexc]

/-- Witness for C9: a 7% exclusive tax on 100 and a 100% inclusive tax
on 0.01 (whose half-cent tax rounds to zero under half-to-even). -/
theorem claim_C9_witness :
    (Tax.calculate_tax ⟨7/100, false⟩ 100).tax_amount = 7
    ∧ (Tax.calculate_tax ⟨1, true⟩ (1/100)).tax_amount = 0 := by
  constructor
  · have h := claim_C9 ⟨7/100, false⟩ 100 (by norm_num) (by norm_num)
    rw [(h.2.1 rfl).2.1]
    decide
  · have h := claim_C9 ⟨1, true⟩ (1/100) (by norm_num) (by norm_num)
    rw [(h.1 rfl).1]
    decide

/-- Claim C10: recomputing document totals is idempotent.  For orders
the second recomputation returns the identical record; for bills and
invoices, whenever a recomputation completes with result `r`, running
it again on `r` returns `r` itself — in particular the four derived
totals are unchanged, with no drift from repeated rounding. -/
theorem claim_C10 :
    (∀ (o : SalesOrder) (lines : List DocumentLine),
        (o.calculate_totals lines).calculate_totals lines = o.calculate_totals lines)
    ∧ (∀ (o : PurchaseOrder) (lines : List DocumentLine),
        (o.calculate_totals lines).calculate_totals lines = o.calculate_totals lines)
    ∧ (∀ (inv : SalesInvoice) (lines : List DocumentLine) (today : Int) (r : SalesInvoice),
        SalesInvoice.calculate_totals inv inv lines today = .ok r →
        SalesInvoice.calculate_totals r r lines today = .ok r)
    ∧ (∀ (b : PurchaseBill) (lines : List DocumentLine) (today : Int) (r : PurchaseBill),
        PurchaseBill.calculate_totals b b lines today = .ok r →
        PurchaseBill.calculate_totals r r lines today = .ok r) := by
  refine ⟨?_, ?_, ?_, ?_⟩
  · intro o lines
    rfl
  · intro o lines
    rfl
  · intro inv lines today r hok
    unfold SalesInvoice.calculate_totals at hok
    by_cases hp : inv.paid_amount = 0
    · rw [if_pos hp, if_neg (by decide :
        ¬(sales_models_imported_names.contains "timezone" = true))] at hok
      exact Except.noConfusion hok
    · rw [if_neg hp] at hok
      split at hok
      next hge =>
        injection hok with hr
        subst hr
        unfold SalesInvoice.calculate_totals
        dsimp only
        rw [if_neg hp, if_pos hge]
      next hge =>
        injection hok with hr
        subst hr
        unfold SalesInvoice.calculate_totals
        dsimp only
        rw [if_neg hp, if_neg hge]
  · intro b lines today r hok
    unfold PurchaseBill.calculate_totals at hok
    by_cases hp : b.paid_amount = 0
    · rw [if_pos hp, if_neg (by decide :
        ¬(purchasing_models_imported_names.contains "timezone" = true))] at hok
      exact Except.noConfusion hok
    · rw [if_neg hp] at hok
      split at hok
      next hge =>
        injection hok with hr
        subst hr
        unfold PurchaseBill.calculate_totals
        dsimp only
        rw [if_neg hp, if_pos hge]
      next hge =>
        injection hok with hr
        subst hr
        unfold PurchaseBill.calculate_totals
        dsimp only
        rw [if_neg hp, if_neg hge]

/-- Witness for C10: rerunning the recomputation on the concrete
partially paid invoice returned by a first recomputation reproduces it
exactly. -/
theorem claim_C10_witness :
    SalesInvoice.calculate_totals ⟨1000, 0, 0, 1000, 400, 600, -1, "partial_paid"⟩
        ⟨1000, 0, 0, 1000, 400, 600, -1, "partial_paid"⟩ lines1000 0
      = .ok ⟨1000, 0, 0, 1000, 400, 600, -1, "partial_paid"⟩ :=
  claim_C10.2.2.1 ⟨0, 0, 0, 0, 400, 0, -1, "confirmed"⟩ lines1000 0
    ⟨1000, 0, 0, 1000, 400, 600, -1, "partial_paid"⟩ (by decide)
